import Mathlib

/-!
Verification of the batch SQL script execution engine of `hr_cli.py`
(`run_all_queries`, the `query run-all` command): statement splitter,
sequential execution driver, result aggregation and counters, console
report, optional persisted report, and connection lifecycle.

Strings are modelled as lists of characters (`PyStr`), with the Python
string operations (`strip`, `startswith`, `endswith`, `split('\n')`)
defined explicitly, so that the line-oriented splitter is a faithful
transcription of the source loop.
-/

/-- A Python string, modelled as its list of characters. -/
abbrev PyStr := List Char

/-- The whitespace characters removed by Python's `str.strip()`
(the ASCII ones; the script never contains other whitespace). -/
def isPySpace (c : Char) : Bool :=
  c = ' ' || c = '\t' || c = '\n' || c = '\r' || c = '\x0b' || c = '\x0c'

/-- Python `s.strip()`: remove leading and trailing whitespace. -/
def pystrip (s : PyStr) : PyStr :=
  ((s.dropWhile isPySpace).reverse.dropWhile isPySpace).reverse

/-- Python `s.startswith(pre)`. -/
def pystartswith (pre s : PyStr) : Bool :=
  pre.isPrefixOf s

/-- Python `s.endswith(suf)`. -/
def pyendswith (suf s : PyStr) : Bool :=
  suf.reverse.isPrefixOf s.reverse

/-- Python `content.split('\n')`: split on newlines, keeping empty pieces. -/
def splitOnNl : PyStr → List PyStr
  | [] => [[]]
  | c :: rest =>
    match splitOnNl rest with
    | [] => [[]]
    | h :: t => if c = '\n' then [] :: h :: t else (c :: h) :: t

/-- The mutable state of the splitter loop in `run_all_queries`
(`queries`, `current_query`, `in_comment`, lines 471–473). -/
structure SplitState where
  queries : List PyStr
  current_query : PyStr
  in_comment : Bool
deriving DecidableEq

/-- One iteration of the splitter loop (lines 475–497 of `hr_cli.py`):
strip the line; skip empty and `--` lines; `/*` enters block-comment
mode; a line ending with `*/` leaves it and is discarded; lines inside a
block comment are discarded; otherwise the line is appended to the
current buffer (`current_query += line + " "`, with `line = line.strip()`
inlined), and a trailing `;` closes the buffer off as a query. -/
def processLine (st : SplitState) (rawLine : PyStr) : SplitState :=
  if (pystrip rawLine).isEmpty || pystartswith "--".toList (pystrip rawLine) then st
  else if pystartswith "/*".toList (pystrip rawLine) then { st with in_comment := true }
  else if pyendswith "*/".toList (pystrip rawLine) then { st with in_comment := false }
  else if st.in_comment then st
  else if pyendswith ";".toList (pystrip rawLine) then
    { st with
        queries := st.queries ++ [pystrip (st.current_query ++ pystrip rawLine ++ [' '])],
        current_query := [] }
  else
    { st with current_query := st.current_query ++ pystrip rawLine ++ [' '] }

/-- The statement splitter of `run_all_queries` (lines 471–500): fold the
loop body over the lines of the script, then flush any unterminated
non-blank remainder as a final query. -/
def splitScript (content : PyStr) : List PyStr :=
  let st := (splitOnNl content).foldl processLine ⟨[], [], false⟩
  if (pystrip st.current_query).isEmpty then st.queries
  else st.queries ++ [pystrip st.current_query]

/-- What the store does with one submitted statement: `ok results columns`
models `cursor.execute` succeeding and `fetchall` returning `results`
(with `cursor.description` column names); `okNoFetch` models execution
succeeding but the fetch raising `sqlite3.OperationalError` ("no results
to fetch"); `err msg` models `cursor.execute` raising. -/
inductive ExecResult where
  | ok (results : List (List Int)) (columns : List PyStr)
  | okNoFetch
  | err (msg : PyStr)
deriving DecidableEq

/-- The `'rows'` field of a result record: a row count, the string
`'N/A'`, or the string `'ERROR'`. -/
inductive RowsVal where
  | num (n : Nat)
  | na
  | err
deriving DecidableEq

/-- One entry of `all_results` (the dicts appended at lines 541–583). -/
structure QueryResult where
  query_num : Nat
  query : PyStr
  rows : RowsVal
  columns : List PyStr
  error : Option PyStr
deriving DecidableEq

/-- The statement text as stored and echoed:
`query[:100] + '...' if len(query) > 100 else query`. -/
def truncate100 (q : PyStr) : PyStr :=
  if q.length > 100 then q.take 100 ++ "...".toList else q

/-- The record appended to `all_results` for query number `i` with text
`q` (lines 513–583): on a successful execute with a fetched result the
row count and (for a non-empty result) the column names; on a fetch
`OperationalError` the `'N/A'` marker; on an execute error the `'ERROR'`
marker with the error message. -/
def execOne (store : PyStr → ExecResult) (i : Nat) (q : PyStr) : QueryResult :=
  match store q with
  | ExecResult.ok results columns =>
    if results.isEmpty then
      { query_num := i, query := truncate100 q, rows := RowsVal.num 0,
        columns := [], error := none }
    else
      { query_num := i, query := truncate100 q, rows := RowsVal.num results.length,
        columns := columns, error := none }
  | ExecResult.okNoFetch =>
      { query_num := i, query := truncate100 q, rows := RowsVal.na,
        columns := [], error := none }
  | ExecResult.err m =>
      { query_num := i, query := truncate100 q, rows := RowsVal.err,
        columns := [], error := some m }

/-- The execution loop `for i, query in enumerate(queries, 1)` (lines
509–585), starting at index `i`: blank queries are skipped (but still
consume an index); every other query is executed and produces one
record, whatever the outcome of earlier queries. -/
def runQueriesFrom (store : PyStr → ExecResult) : Nat → List PyStr → List QueryResult
  | _, [] => []
  | i, q :: t =>
    if (pystrip q).isEmpty then runQueriesFrom store (i + 1) t
    else execOne store i q :: runQueriesFrom store (i + 1) t

/-- The full execution loop, enumerating from 1. -/
def runQueries (store : PyStr → ExecResult) (queries : List PyStr) : List QueryResult :=
  runQueriesFrom store 1 queries

/-- `successful = sum(1 for r in all_results if r.get('rows') != 'ERROR')`
(line 591). -/
def successCount (rs : List QueryResult) : Nat :=
  rs.countP (fun r => !(decide (r.rows = RowsVal.err)))

/-- `failed = sum(1 for r in all_results if r.get('rows') == 'ERROR')`
(line 592). -/
def failureCount (rs : List QueryResult) : Nat :=
  rs.countP (fun r => decide (r.rows = RowsVal.err))

/-- `Total: {len(queries)}` (line 596). -/
def totalCount (queries : List PyStr) : Nat :=
  queries.length

/-- One abstract item of console output inside a per-statement block. -/
inductive ConsoleItem where
  | queryHeader (i : Nat)
  | queryText (t : PyStr)
  | resultsHeader (n : Nat)
  | table (rows : List (List Int)) (cols : List PyStr)
  | moreRows (n : Nat)
  | rowsReturned (n : Nat)
  | okNoResults
  | okNoFetch
  | errorMsg (msg : PyStr)
  | blank
deriving DecidableEq

/-- The console block printed for one executed statement (lines
514–576): the `Query {i}:` header; in verbose mode the statement text
truncated to 100 characters; then the outcome — in verbose mode a row
count header and a table of the full result when it has at most 5 rows,
or of the first 3 rows plus a `... and n more rows` line otherwise; in
non-verbose mode just the row count; a plain success marker for an empty
result or an inapplicable fetch; the error message on failure. -/
def consoleBlock (verbose : Bool) (store : PyStr → ExecResult) (i : Nat) (q : PyStr) :
    List ConsoleItem :=
  [ConsoleItem.queryHeader i]
  ++ (if verbose then [ConsoleItem.queryText (truncate100 q)] else [])
  ++ match store q with
     | ExecResult.ok results columns =>
       if results.isEmpty then [ConsoleItem.okNoResults]
       else if verbose then
         ConsoleItem.resultsHeader results.length ::
         (if results.length ≤ 5 then [ConsoleItem.table results columns]
          else [ConsoleItem.table (results.take 3) columns,
                ConsoleItem.moreRows (results.length - 3)])
       else [ConsoleItem.rowsReturned results.length]
     | ExecResult.okNoFetch => [ConsoleItem.okNoFetch]
     | ExecResult.err m => [ConsoleItem.errorMsg m]

/-- The console output of the whole execution loop starting at index
`i`: one block and a blank line per non-blank query. -/
def runConsoleFrom (verbose : Bool) (store : PyStr → ExecResult) :
    Nat → List PyStr → List ConsoleItem
  | _, [] => []
  | i, q :: t =>
    if (pystrip q).isEmpty then runConsoleFrom verbose store (i + 1) t
    else consoleBlock verbose store i q ++ [ConsoleItem.blank]
         ++ runConsoleFrom verbose store (i + 1) t

/-- Console output of the full execution loop, enumerating from 1. -/
def runConsole (verbose : Bool) (store : PyStr → ExecResult) (queries : List PyStr) :
    List ConsoleItem :=
  runConsoleFrom verbose store 1 queries

/-- The finalized summary echoed at lines 594–596. -/
structure Summary where
  successful : Nat
  failed : Nat
  total : Nat
deriving DecidableEq

/-- The environment of one `run-all` invocation: whether
`get_db_connection()` succeeds, whether `queries.sql` exists, the result
of reading it (`none` = the read raises), the store's behaviour per
statement, and whether writing the output file succeeds. -/
structure Env where
  connOk : Bool
  fileExists : Bool
  readResult : Option PyStr
  store : PyStr → ExecResult
  writeOk : Bool

/-- Externally observable events of one `run-all` invocation, in order. -/
inductive Event where
  | connAcquired
  | connClosed
  | echoFileMissing
  | echoReadError
  | stmtDone (r : QueryResult)
  | summaryEchoed (s : Summary)
  | reportWritten
  | echoWriteError
deriving DecidableEq

/-- The control flow of `run_all_queries` (lines 449–621): acquire the
connection (return silently if that fails); return early if
`queries.sql` is missing or unreadable — these `return`s skip
`conn.close()`; otherwise split, execute every statement, echo the
summary, optionally write the report (a write failure only echoes an
error), and finally close the connection. Returns the event trace and
the summary (`none` when the run aborted before executing anything). -/
def runAll (env : Env) (output_file : Option PyStr) : List Event × Option Summary :=
  if env.connOk = false then ([], none)
  else if env.fileExists = false then ([Event.connAcquired, Event.echoFileMissing], none)
  else
    match env.readResult with
    | none => ([Event.connAcquired, Event.echoReadError], none)
    | some content =>
      let qs := splitScript content
      let rs := runQueries env.store qs
      let s : Summary := ⟨successCount rs, failureCount rs, totalCount qs⟩
      let writeEvents : List Event :=
        match output_file with
        | none => []
        | some _ => if env.writeOk then [Event.reportWritten] else [Event.echoWriteError]
      ([Event.connAcquired] ++ rs.map Event.stmtDone
         ++ [Event.summaryEchoed s] ++ writeEvents ++ [Event.connClosed], some s)

/-- Extract the per-statement outcome carried by a trace event. -/
def stmtOutcome : Event → Option QueryResult
  | Event.stmtDone r => some r
  | _ => none

/-- The round-trip scenario script. -/
def roundTripScript : PyStr :=
  "-- comment\nSELECT 1;\n/* skip\nthis */\nSELECT 2;\n".toList

/-- A concrete store used to instantiate theorems: `SELECT 1;` and
`SELECT 2;` each return one row, everything else is a store error. -/
def demoStore : PyStr → ExecResult := fun q =>
  if q = "SELECT 1;".toList then ExecResult.ok [[1]] ["1".toList]
  else if q = "SELECT 2;".toList then ExecResult.ok [[2]] ["2".toList]
  else ExecResult.err "syntax error".toList

/-- A concrete store where only the statement `BROKEN` fails. -/
def threeStore : PyStr → ExecResult := fun q =>
  if q = "BROKEN".toList then ExecResult.err "malformed".toList
  else ExecResult.ok [[1]] ["c".toList]

/-- A concrete store returning a seven-row result for every statement. -/
def bigStore : PyStr → ExecResult := fun _ =>
  ExecResult.ok [[1], [2], [3], [4], [5], [6], [7]] ["n".toList]

/-- A concrete environment: connection and script file available, the
round-trip script as content, and a failing output-file write. -/
def demoEnv : Env := ⟨true, true, some roundTripScript, demoStore, false⟩

/-- A 150-character error message, used to show that console error
output is not truncated. -/
def longMsg : PyStr := List.replicate 150 'e'

/-! ### Helper lemmas about the Python string operations -/

theorem mem_dropWhile_of_mem {α : Type} {p : α → Bool} {x : α} {l : List α}
    (hmem : x ∈ l) (hx : p x = false) : x ∈ l.dropWhile p := by
  induction l with
  | nil => exact absurd hmem (List.not_mem_nil x)
  | cons a t ih =>
    rw [List.dropWhile_cons]
    by_cases ha : p a = true
    · rw [if_pos ha]
      rcases List.mem_cons.mp hmem with h | h
      · subst h; rw [hx] at ha; exact absurd ha (by simp)
      · exact ih h
    · rw [if_neg ha]
      exact hmem

theorem mem_pystrip {x : Char} {l : PyStr} (hmem : x ∈ l) (hx : isPySpace x = false) :
    x ∈ pystrip l := by
  unfold pystrip
  rw [List.mem_reverse]
  exact mem_dropWhile_of_mem (by rw [List.mem_reverse]; exact mem_dropWhile_of_mem hmem hx) hx

theorem pystrip_not_blank {x : Char} {l : PyStr} (hmem : x ∈ l) (hx : isPySpace x = false) :
    (pystrip l).isEmpty = false := by
  have h := mem_pystrip hmem hx
  cases hs : pystrip l with
  | nil => rw [hs] at h; exact absurd h (List.not_mem_nil x)
  | cons a t => rfl

theorem dropWhile_head_false {α : Type} {p : α → Bool} {x : α} {t : List α} :
    ∀ {l : List α}, l.dropWhile p = x :: t → p x = false := by
  intro l
  induction l with
  | nil => intro h; exact absurd h (by simp)
  | cons a s ih =>
    intro h
    rw [List.dropWhile_cons] at h
    by_cases ha : p a = true
    · rw [if_pos ha] at h
      exact ih h
    · rw [if_neg ha] at h
      injection h with h1 h2
      subst h1
      exact Bool.eq_false_iff.mpr ha

theorem pystrip_has_nonspace {l : PyStr} (h : (pystrip l).isEmpty = false) :
    ∃ x ∈ pystrip l, isPySpace x = false := by
  unfold pystrip at h ⊢
  cases hin : (l.dropWhile isPySpace).reverse.dropWhile isPySpace with
  | nil => rw [hin] at h; exact absurd h (by simp)
  | cons y t =>
    refine ⟨y, ?_, dropWhile_head_false hin⟩
    rw [List.mem_reverse]
    exact List.mem_cons_self y t

theorem mem_of_pyendswith {c : Char} {l : PyStr} (h : pyendswith [c] l = true) : c ∈ l := by
  unfold pyendswith at h
  cases hl : l.reverse with
  | nil => rw [hl] at h; simp [List.isPrefixOf] at h
  | cons a t =>
    rw [hl] at h
    simp only [List.reverse_cons, List.reverse_nil, List.nil_append, List.isPrefixOf,
      Bool.and_eq_true, beq_iff_eq] at h
    have hmem : c ∈ l.reverse := by rw [hl, h.1]; exact List.mem_cons_self a t
    rwa [List.mem_reverse] at hmem

theorem pystartswith_slashstar {l : PyStr} (h : pystartswith ("/*".toList) l = true) :
    l.isEmpty = false ∧ pystartswith ("--".toList) l = false := by
  cases l with
  | nil => exact absurd h (by decide)
  | cons a t =>
    refine ⟨rfl, ?_⟩
    unfold pystartswith at h ⊢
    simp only [show ("/*".toList : PyStr) = ['/', '*'] from rfl, List.isPrefixOf,
      Bool.and_eq_true, beq_iff_eq] at h
    obtain ⟨rfl, -⟩ := h
    simp only [show ("--".toList : PyStr) = ['-', '-'] from rfl, List.isPrefixOf]
    rw [show (('-' : Char) == '/') = false from by decide]
    rfl

/-! ### The splitter never produces a blank query -/

/-- Invariant of the splitter loop: every produced query contains a
non-whitespace character. -/
def queriesNonblank (st : SplitState) : Prop :=
  ∀ q ∈ st.queries, ∃ x ∈ q, isPySpace x = false

theorem processLine_nonblank {st : SplitState} {l : PyStr} (h : queriesNonblank st) :
    queriesNonblank (processLine st l) := by
  unfold processLine
  split_ifs with h1 h2 h3 h4 h5
  · exact h
  · exact h
  · exact h
  · exact h
  · intro q hq
    rcases List.mem_append.mp hq with hq | hq
    · exact h q hq
    · have hq' : q = pystrip (st.current_query ++ pystrip l ++ [' ']) := by
        simpa using hq
      subst hq'
      have hsemi : (';' : Char) ∈ st.current_query ++ pystrip l ++ [' '] := by
        have := mem_of_pyendswith (c := ';') (by simpa using h5)
        simp [List.mem_append, this]
      exact ⟨';', mem_pystrip hsemi (by decide), by decide⟩
  · exact h

theorem foldl_nonblank (lines : List PyStr) (st : SplitState) (h : queriesNonblank st) :
    queriesNonblank (lines.foldl processLine st) := by
  induction lines generalizing st with
  | nil => exact h
  | cons a t ih => exact ih _ (processLine_nonblank h)

/-- Every statement produced by the splitter is non-blank: its `strip`
is non-empty, so the execution loop never skips a splitter statement. -/
theorem splitScript_nonblank {content : PyStr} :
    ∀ q ∈ splitScript content, (pystrip q).isEmpty = false := by
  intro q hq
  unfold splitScript at hq
  have hfold := foldl_nonblank (splitOnNl content) ⟨[], [], false⟩
    (by intro q hq; exact absurd hq (List.not_mem_nil q))
  by_cases hc :
      (pystrip ((splitOnNl content).foldl processLine ⟨[], [], false⟩).current_query).isEmpty = true
  · rw [if_pos hc] at hq
    obtain ⟨x, hx1, hx2⟩ := hfold q hq
    exact pystrip_not_blank hx1 hx2
  · rw [if_neg hc] at hq
    rcases List.mem_append.mp hq with hq | hq
    · obtain ⟨x, hx1, hx2⟩ := hfold q hq
      exact pystrip_not_blank hx1 hx2
    · have hq' :
          q = pystrip ((splitOnNl content).foldl processLine ⟨[], [], false⟩).current_query := by
        simpa using hq
      subst hq'
      obtain ⟨x, hx1, hx2⟩ :=
        pystrip_has_nonspace (Bool.eq_false_iff.mpr hc)
      exact pystrip_not_blank hx1 hx2

/-! ### Facts about the execution loop -/

theorem execOne_query_num (store : PyStr → ExecResult) (i : Nat) (q : PyStr) :
    (execOne store i q).query_num = i := by
  unfold execOne
  split <;> (try split) <;> rfl

theorem execOne_query (store : PyStr → ExecResult) (i : Nat) (q : PyStr) :
    (execOne store i q).query = truncate100 q := by
  unfold execOne
  split <;> (try split) <;> rfl

theorem execOne_rows_ok {store : PyStr → ExecResult} {q : PyStr} {res : List (List Int)}
    {cols : List PyStr} (h : store q = ExecResult.ok res cols) (i : Nat) :
    (execOne store i q).rows = RowsVal.num res.length := by
  unfold execOne
  rw [h]
  dsimp only
  by_cases he : res.isEmpty = true
  · rw [if_pos he]
    rw [List.isEmpty_iff] at he
    subst he
    rfl
  · rw [if_neg he]

theorem execOne_err {store : PyStr → ExecResult} {q m : PyStr}
    (h : store q = ExecResult.err m) (i : Nat) :
    execOne store i q
      = ⟨i, truncate100 q, RowsVal.err, [], some m⟩ := by
  unfold execOne
  rw [h]

theorem runQueriesFrom_length (store : PyStr → ExecResult) :
    ∀ (qs : List PyStr) (i : Nat), (∀ q ∈ qs, (pystrip q).isEmpty = false) →
      (runQueriesFrom store i qs).length = qs.length := by
  intro qs
  induction qs with
  | nil => intro i h; rfl
  | cons q t ih =>
    intro i h
    rw [runQueriesFrom, if_neg (by simp [h q (List.mem_cons_self q t)])]
    simp [ih (i + 1) (fun r hr => h r (List.mem_cons_of_mem q hr))]

theorem runQueriesFrom_map_query (store : PyStr → ExecResult) :
    ∀ (qs : List PyStr) (i : Nat), (∀ q ∈ qs, (pystrip q).isEmpty = false) →
      (runQueriesFrom store i qs).map QueryResult.query = qs.map truncate100 := by
  intro qs
  induction qs with
  | nil => intro i h; rfl
  | cons q t ih =>
    intro i h
    rw [runQueriesFrom, if_neg (by simp [h q (List.mem_cons_self q t)])]
    simp only [List.map_cons, execOne_query]
    rw [ih (i + 1) (fun r hr => h r (List.mem_cons_of_mem q hr))]

theorem runQueriesFrom_map_num (store : PyStr → ExecResult) :
    ∀ (qs : List PyStr) (i : Nat), (∀ q ∈ qs, (pystrip q).isEmpty = false) →
      (runQueriesFrom store i qs).map QueryResult.query_num = List.range' i qs.length := by
  intro qs
  induction qs with
  | nil => intro i h; rfl
  | cons q t ih =>
    intro i h
    rw [runQueriesFrom, if_neg (by simp [h q (List.mem_cons_self q t)])]
    simp only [List.map_cons, execOne_query_num, List.length_cons, List.range'_succ]
    rw [ih (i + 1) (fun r hr => h r (List.mem_cons_of_mem q hr))]

theorem runQueriesFrom_get? (store : PyStr → ExecResult) :
    ∀ (qs : List PyStr) (i j : Nat) (q : PyStr),
      (∀ r ∈ qs, (pystrip r).isEmpty = false) → qs.get? j = some q →
      (runQueriesFrom store i qs).get? j = some (execOne store (i + j) q) := by
  intro qs
  induction qs with
  | nil => intro i j q h hq; simp at hq
  | cons a t ih =>
    intro i j q h hq
    rw [runQueriesFrom, if_neg (by simp [h a (List.mem_cons_self a t)])]
    cases j with
    | zero =>
      simp only [List.get?_cons_zero, Option.some.injEq] at hq
      subst hq
      rfl
    | succ j' =>
      rw [List.get?_cons_succ] at hq
      rw [List.get?_cons_succ]
      rw [ih (i + 1) j' q (fun r hr => h r (List.mem_cons_of_mem a hr)) hq]
      have harith : i + 1 + j' = i + (j' + 1) := by omega
      rw [harith]

theorem success_add_failure (rs : List QueryResult) :
    successCount rs + failureCount rs = rs.length := by
  induction rs with
  | nil => rfl
  | cons r t ih =>
    unfold successCount failureCount at ih ⊢
    rw [List.countP_cons, List.countP_cons]
    by_cases h : r.rows = RowsVal.err <;> simp only [h] <;> simp <;> omega

/-! ### Claim theorems -/

/-- C2: RunSummary counter invariant — for every script,
`successCount + failureCount = totalCount = len(statements)`, and the
sequence positions assigned to the statements are exactly
`1, 2, ..., totalCount`, strictly increasing starting at 1. -/
theorem c2_counter_invariant (store : PyStr → ExecResult) (content : PyStr) :
    successCount (runQueries store (splitScript content))
        + failureCount (runQueries store (splitScript content))
      = totalCount (splitScript content)
  ∧ totalCount (splitScript content) = (splitScript content).length
  ∧ (runQueries store (splitScript content)).map QueryResult.query_num
      = List.range' 1 (splitScript content).length := by
  refine ⟨?_, rfl, ?_⟩
  · rw [success_add_failure]
    exact runQueriesFrom_length store (splitScript content) 1 splitScript_nonblank
  · exact runQueriesFrom_map_num store (splitScript content) 1 splitScript_nonblank

/-- C1: failure isolation — every statement produced by the splitter is
submitted exactly once in script order whatever the store answers (the
`j`-th record is `execOne` of the `j`-th statement, hence independent of
every other statement's outcome); a statement on which the store raises
is recorded as a failure record carrying the error message; and a script
of a valid statement, a malformed statement, and a valid statement
yields totalCount 3, successCount 2, failureCount 1, the valid
statements' records unaffected by the middle failure. -/
theorem c1_failure_isolation (store : PyStr → ExecResult) (content : PyStr) :
    ((runQueries store (splitScript content)).map QueryResult.query
       = (splitScript content).map truncate100)
  ∧ (∀ j q, (splitScript content).get? j = some q →
       (runQueries store (splitScript content)).get? j = some (execOne store (1 + j) q))
  ∧ (∀ q m i, store q = ExecResult.err m →
       execOne store i q = ⟨i, truncate100 q, RowsVal.err, [], some m⟩)
  ∧ (∀ s1 s2 s3 m rows1 rows3 cols1 cols3,
       store s1 = ExecResult.ok rows1 cols1 →
       store s2 = ExecResult.err m →
       store s3 = ExecResult.ok rows3 cols3 →
       (pystrip s1).isEmpty = false →
       (pystrip s2).isEmpty = false →
       (pystrip s3).isEmpty = false →
       successCount (runQueries store [s1, s2, s3]) = 2
       ∧ failureCount (runQueries store [s1, s2, s3]) = 1
       ∧ totalCount [s1, s2, s3] = 3
       ∧ (runQueries store [s1, s2, s3]).get? 0 = some (execOne store 1 s1)
       ∧ (runQueries store [s1, s2, s3]).get? 2 = some (execOne store 3 s3)) := by
  refine ⟨?_, ?_, ?_, ?_⟩
  · exact runQueriesFrom_map_query store (splitScript content) 1 splitScript_nonblank
  · intro j q hq
    exact runQueriesFrom_get? store (splitScript content) 1 j q splitScript_nonblank hq
  · intro q m i h
    exact execOne_err h i
  · intro s1 s2 s3 m rows1 rows3 cols1 cols3 h1 h2 h3 n1 n2 n3
    have hrun : runQueries store [s1, s2, s3]
        = [execOne store 1 s1, execOne store 2 s2, execOne store 3 s3] := by
      show runQueriesFrom store 1 [s1, s2, s3] = _
      rw [runQueriesFrom, if_neg (by simp [n1])]
      rw [runQueriesFrom, if_neg (by simp [n2])]
      rw [runQueriesFrom, if_neg (by simp [n3])]
      rfl
    have e1 : (execOne store 1 s1).rows = RowsVal.num rows1.length := execOne_rows_ok h1 1
    have e2 : execOne store 2 s2 = ⟨2, truncate100 s2, RowsVal.err, [], some m⟩ :=
      execOne_err h2 2
    have e3 : (execOne store 3 s3).rows = RowsVal.num rows3.length := execOne_rows_ok h3 3
    refine ⟨?_, ?_, rfl, ?_, ?_⟩
    · unfold successCount
      rw [hrun]
      simp [List.countP_cons, e1, e2, e3]
    · unfold failureCount
      rw [hrun]
      simp [List.countP_cons, e1, e2, e3]
    · rw [hrun]; rfl
    · rw [hrun]; rfl

/-- C3: splitter round trip — the script
`"-- comment\nSELECT 1;\n/* skip\nthis */\nSELECT 2;\n"` splits into
exactly `SELECT 1;` then `SELECT 2;`, and when the store returns one row
for each, both execute successfully with row count 1. -/
theorem c3_round_trip (store : PyStr → ExecResult) (r1 r2 : List Int) (cs1 cs2 : List PyStr)
    (h1 : store ("SELECT 1;".toList) = ExecResult.ok [r1] cs1)
    (h2 : store ("SELECT 2;".toList) = ExecResult.ok [r2] cs2) :
    splitScript roundTripScript = ["SELECT 1;".toList, "SELECT 2;".toList]
  ∧ runQueries store (splitScript roundTripScript)
      = [⟨1, "SELECT 1;".toList, RowsVal.num 1, cs1, none⟩,
         ⟨2, "SELECT 2;".toList, RowsVal.num 1, cs2, none⟩] := by
  have hs : splitScript roundTripScript = ["SELECT 1;".toList, "SELECT 2;".toList] := by decide
  refine ⟨hs, ?_⟩
  rw [hs]
  show runQueriesFrom store 1 _ = _
  rw [runQueriesFrom, if_neg (by decide)]
  rw [runQueriesFrom, if_neg (by decide)]
  rw [runQueriesFrom]
  unfold execOne
  rw [h1, h2]
  rw [show truncate100 ("SELECT 1;".toList) = "SELECT 1;".toList from by decide,
      show truncate100 ("SELECT 2;".toList) = "SELECT 2;".toList from by decide]
  rfl

/-- C3 witness: the round trip evaluated at the concrete store
`demoStore`. -/
theorem c3_round_trip_witness :
    splitScript roundTripScript = ["SELECT 1;".toList, "SELECT 2;".toList]
  ∧ runQueries demoStore (splitScript roundTripScript)
      = [⟨1, "SELECT 1;".toList, RowsVal.num 1, ["1".toList], none⟩,
         ⟨2, "SELECT 2;".toList, RowsVal.num 1, ["2".toList], none⟩] :=
  c3_round_trip demoStore [1] [2] ["1".toList] ["2".toList] (by decide) (by decide)

/-- C1 witness: the three-statement scenario evaluated at the concrete
store `threeStore`, in which only the statement `BROKEN` fails. -/
theorem c1_failure_isolation_witness :
    successCount (runQueries threeStore
        ["SELECT 1;".toList, "BROKEN".toList, "SELECT 2;".toList]) = 2
  ∧ failureCount (runQueries threeStore
        ["SELECT 1;".toList, "BROKEN".toList, "SELECT 2;".toList]) = 1
  ∧ totalCount ["SELECT 1;".toList, "BROKEN".toList, "SELECT 2;".toList] = 3 := by
  have h := (c1_failure_isolation threeStore []).2.2.2
    ("SELECT 1;".toList) ("BROKEN".toList) ("SELECT 2;".toList)
    ("malformed".toList) [[1]] [[1]] ["c".toList] ["c".toList]
    (by decide) (by decide) (by decide) (by decide) (by decide) (by decide)
  exact ⟨h.1, h.2.1, h.2.2.1⟩

/-- C4 counterexample: while the splitter is in block-comment mode, the
line `-- close */` ends with the block-comment terminator `*/`, yet it
does not switch the splitter back to normal mode (the `--` check fires
first), so in the script `"/* a\n-- close */\nSELECT 1;\n"` the final
`SELECT 1;` is swallowed and no statement is produced — contradicting
the claim that a line ending the block comment always switches the
splitter back to normal mode. -/
theorem c4_counterexample :
    pyendswith ("*/".toList) (pystrip ("-- close */".toList)) = true
  ∧ (processLine ⟨[], [], true⟩ ("-- close */".toList)).in_comment = true
  ∧ splitScript ("/* a\n-- close */\nSELECT 1;\n".toList) = [] := by
  refine ⟨by decide, by decide, by decide⟩

/-- C4 (amended): every line processed while the splitter is in
block-comment mode contributes no characters to any produced statement
and terminates no statement, even when it contains or ends with `;`;
and a line ending with `*/` that is non-empty after trimming and does
not begin with `--` or `/*` switches the splitter back to normal mode
and is itself discarded. -/
theorem c4_block_comment_exclusion (st : SplitState) (l : PyStr)
    (h : st.in_comment = true) :
    (processLine st l).queries = st.queries
  ∧ (processLine st l).current_query = st.current_query
  ∧ ((pystrip l).isEmpty = false →
     pystartswith ("--".toList) (pystrip l) = false →
     pystartswith ("/*".toList) (pystrip l) = false →
     pyendswith ("*/".toList) (pystrip l) = true →
     processLine st l = { st with in_comment := false }) := by
  unfold processLine
  split_ifs with h1 h2 h3
  · exact ⟨rfl, rfl, fun g1 g2 g3 g4 => by rw [g1, g2] at h1; simp at h1⟩
  · exact ⟨rfl, rfl, fun g1 g2 g3 g4 => Bool.noConfusion (h2.symm.trans g3)⟩
  · exact ⟨rfl, rfl, fun g1 g2 g3 g4 => rfl⟩
  · exact ⟨rfl, rfl, fun g1 g2 g3 g4 => absurd g4 h3⟩

/-- C4 amended witness: in block-comment mode, a line containing a `;`
produces no statement, and the closing line `end */` switches the
splitter back to normal mode, leaving queries and buffer untouched. -/
theorem c4_block_comment_exclusion_witness :
    (processLine ⟨[], [], true⟩ ("SELECT 9; */ ;".toList)).queries = []
  ∧ processLine ⟨["q".toList], "cur".toList, true⟩ ("end */".toList)
      = { queries := ["q".toList], current_query := "cur".toList, in_comment := false } := by
  have ha := c4_block_comment_exclusion ⟨[], [], true⟩ ("SELECT 9; */ ;".toList) rfl
  have hb := c4_block_comment_exclusion ⟨["q".toList], "cur".toList, true⟩ ("end */".toList) rfl
  exact ⟨ha.1, hb.2.2 (by decide) (by decide) (by decide) (by decide)⟩

/-- C6: a line whose trimmed text starts with `--` leaves the splitter
state completely unchanged — it is never included in any statement's
text, never closes the current buffer, and never separates statements;
concretely, a `--` line between the two halves of a statement does not
split it. -/
theorem c6_line_comment_exclusion (st : SplitState) (l : PyStr)
    (h : pystartswith ("--".toList) (pystrip l) = true) :
    processLine st l = st
  ∧ splitScript ("SELECT\n-- note\n1;\n".toList) = ["SELECT 1;".toList] := by
  refine ⟨?_, by decide⟩
  unfold processLine
  rw [if_pos (by rw [h]; simp)]

/-- C6 witness: the line `-- note` leaves a mid-statement splitter state
unchanged. -/
theorem c6_line_comment_exclusion_witness :
    processLine ⟨["a".toList], "SELECT".toList, false⟩ ("-- note".toList)
      = ⟨["a".toList], "SELECT".toList, false⟩ :=
  (c6_line_comment_exclusion ⟨["a".toList], "SELECT".toList, false⟩
    ("-- note".toList) (by decide)).1

/-- C7: a line that after trimming both starts with `/*` and ends with
`*/` switches the splitter into block-comment mode without leaving it on
that line (queries and buffer unchanged); while in block-comment mode,
any line not ending with `*/` — including statement lines ending with
`;` — is discarded with the whole state unchanged; concretely, after a
one-line block comment the following `SELECT` statements are swallowed. -/
theorem c7_one_line_block_comment (st : SplitState) (l : PyStr)
    (h1 : pystartswith ("/*".toList) (pystrip l) = true)
    (h2 : pyendswith ("*/".toList) (pystrip l) = true) :
    processLine st l = { st with in_comment := true }
  ∧ (∀ (qs : List PyStr) (cq l' : PyStr), pyendswith ("*/".toList) (pystrip l') = false →
       processLine ⟨qs, cq, true⟩ l' = ⟨qs, cq, true⟩)
  ∧ splitScript ("/* x */\nSELECT 1;\nSELECT 2;\n".toList) = [] := by
  obtain ⟨he, hd⟩ := pystartswith_slashstar h1
  refine ⟨?_, ?_, by decide⟩
  · unfold processLine
    rw [if_neg (by rw [he, hd]; simp), if_pos h1]
  · intro qs cq l' hend
    unfold processLine
    split_ifs with g1 g2 g3 g4 <;> simp_all

/-- C7 witness: the one-line block comment `/* x */` switches a fresh
splitter state into block-comment mode. -/
theorem c7_one_line_block_comment_witness :
    processLine ⟨[], [], false⟩ ("/* x */".toList) = ⟨[], [], true⟩
  ∧ splitScript ("/* x */\nSELECT 1;\nSELECT 2;\n".toList) = [] := by
  have h := c7_one_line_block_comment ⟨[], [], false⟩ ("/* x */".toList) (by decide) (by decide)
  exact ⟨h.1, h.2.2⟩

/-- C5: preview row cap — in verbose console output, a successfully
executed statement whose result has 6 or more rows shows a table of
exactly the first 3 rows (plus a more-rows line); a result with 5 or
fewer rows shows the full result set (a table of all rows when there are
any, and no table at all — i.e. zero rows shown — when the result is
empty). -/
theorem c5_preview_cap (store : PyStr → ExecResult) (i : Nat) (q : PyStr)
    (results : List (List Int)) (columns : List PyStr)
    (h : store q = ExecResult.ok results columns) :
    (6 ≤ results.length →
       ConsoleItem.table (results.take 3) columns ∈ consoleBlock true store i q
       ∧ (results.take 3).length = 3
       ∧ ConsoleItem.moreRows (results.length - 3) ∈ consoleBlock true store i q)
  ∧ (results.length ≤ 5 → results.isEmpty = false →
       ConsoleItem.table results columns ∈ consoleBlock true store i q)
  ∧ (results.isEmpty = true →
       ∀ rows cols, ConsoleItem.table rows cols ∉ consoleBlock true store i q) := by
  unfold consoleBlock
  rw [h]
  dsimp only
  refine ⟨?_, ?_, ?_⟩
  · intro h6
    have hne : results.isEmpty = false := by
      cases results with
      | nil => simp at h6
      | cons a t => rfl
    have hgt : ¬ results.length ≤ 5 := by omega
    rw [hne]
    simp only [Bool.false_eq_true, if_false, if_true, if_neg hgt]
    refine ⟨by simp, ?_, by simp⟩
    rw [List.length_take]
    omega
  · intro h5 hne
    rw [hne]
    simp only [Bool.false_eq_true, if_false, if_true, if_pos h5]
    simp
  · intro he rows cols
    rw [he]
    simp

/-- C5 witness: with a seven-row result, verbose output previews exactly
the first three rows. -/
theorem c5_preview_cap_witness :
    ConsoleItem.table [[1], [2], [3]] ["n".toList]
      ∈ consoleBlock true bigStore 1 ("SELECT *;".toList)
  ∧ ConsoleItem.moreRows 4 ∈ consoleBlock true bigStore 1 ("SELECT *;".toList) := by
  have h := (c5_preview_cap bigStore 1 ("SELECT *;".toList)
    [[1], [2], [3], [4], [5], [6], [7]] ["n".toList] rfl).1 (by decide)
  exact ⟨h.1, h.2.2⟩

set_option maxRecDepth 4000 in
/-- C10 counterexample: a failing statement's error message is echoed to
the console in full, not truncated — with a 150-character error message
the console block carries the whole message, and no truncated form of it
appears. -/
theorem c10_counterexample :
    consoleBlock true (fun _ => ExecResult.err longMsg) 1 ("SELECT 1;".toList)
      = [ConsoleItem.queryHeader 1, ConsoleItem.queryText ("SELECT 1;".toList),
         ConsoleItem.errorMsg longMsg]
  ∧ longMsg.length = 150
  ∧ truncate100 longMsg ≠ longMsg
  ∧ ConsoleItem.errorMsg (truncate100 longMsg) ∉
      consoleBlock true (fun _ => ExecResult.err longMsg) 1 ("SELECT 1;".toList) := by
  refine ⟨by decide, by decide, by decide, by decide⟩

/-- C10 (amended): the console block for each (statement, outcome) pair
starts with the labeled statement-index header, in verbose mode is
followed by the statement text truncated to 100 characters, and shows
the outcome — the row count when the statement returned rows, and on
failure the error message in full (untruncated). -/
theorem c10_console_block (verbose : Bool) (store : PyStr → ExecResult) (i : Nat) (q : PyStr) :
    (consoleBlock verbose store i q).head? = some (ConsoleItem.queryHeader i)
  ∧ (verbose = true →
      (consoleBlock verbose store i q).get? 1 = some (ConsoleItem.queryText (truncate100 q)))
  ∧ (∀ m, store q = ExecResult.err m →
      consoleBlock verbose store i q
        = [ConsoleItem.queryHeader i]
          ++ (if verbose then [ConsoleItem.queryText (truncate100 q)] else [])
          ++ [ConsoleItem.errorMsg m])
  ∧ (∀ results columns, store q = ExecResult.ok results columns → results.isEmpty = false →
      (verbose = false →
        ConsoleItem.rowsReturned results.length ∈ consoleBlock verbose store i q)
      ∧ (verbose = true →
        ConsoleItem.resultsHeader results.length ∈ consoleBlock verbose store i q)) := by
  refine ⟨?_, ?_, ?_, ?_⟩
  · unfold consoleBlock
    cases verbose <;> simp
  · intro hv
    subst hv
    unfold consoleBlock
    simp
  · intro m hm
    unfold consoleBlock
    rw [hm]
  · intro results columns hok hne
    unfold consoleBlock
    rw [hok]
    dsimp only
    constructor
    · intro hv
      subst hv
      rw [hne]
      simp
    · intro hv
      subst hv
      rw [hne]
      by_cases h5 : results.length ≤ 5 <;> simp [h5]

/-- C10 amended witness: the console block for a failing statement,
evaluated concretely: header, truncated-to-100 statement text, and the
full error message. -/
theorem c10_console_block_witness :
    consoleBlock true (fun _ => ExecResult.err ("boom".toList)) 2 ("SELECT 1;".toList)
      = [ConsoleItem.queryHeader 2, ConsoleItem.queryText ("SELECT 1;".toList),
         ConsoleItem.errorMsg ("boom".toList)] := by
  have h := (c10_console_block true (fun _ => ExecResult.err ("boom".toList)) 2
    ("SELECT 1;".toList)).2.2.1 ("boom".toList) rfl
  rw [show truncate100 ("SELECT 1;".toList) = "SELECT 1;".toList from by decide] at h
  simpa using h

/-- C8 counterexample: a run that acquires the connection but aborts
because `queries.sql` is absent returns early without closing the
connection — no `connClosed` event ever occurs in that trace,
contradicting the claim that the connection is released even in runs
aborting early on a missing or unreadable script file. -/
theorem c8_counterexample :
    (runAll ⟨true, false, none, fun _ => ExecResult.okNoFetch, true⟩ none).1
      = [Event.connAcquired, Event.echoFileMissing]
  ∧ Event.connClosed ∉ (runAll ⟨true, false, none, fun _ => ExecResult.okNoFetch, true⟩ none).1
  ∧ Event.connClosed ∉ (runAll ⟨true, true, none, fun _ => ExecResult.okNoFetch, true⟩ none).1 := by
  refine ⟨by decide, by decide, by decide⟩

/-- C8 (amended): in every run that acquires the connection and
successfully reads the script file, the connection is closed exactly at
the end of the trace — after every statement execution and after any
optional file write; runs that abort early because the script file is
absent or unreadable return without closing the connection. -/
theorem c8_conn_release (env : Env) (out : Option PyStr) (content : PyStr)
    (h1 : env.connOk = true) (h2 : env.fileExists = true)
    (h3 : env.readResult = some content) :
    ∃ pre, (runAll env out).1 = pre ++ [Event.connClosed] ∧ Event.connClosed ∉ pre := by
  unfold runAll
  rw [h1, h2, h3]
  simp only [Bool.true_eq_false, if_false]
  refine ⟨[Event.connAcquired]
    ++ (runQueries env.store (splitScript content)).map Event.stmtDone
    ++ [Event.summaryEchoed ⟨successCount (runQueries env.store (splitScript content)),
          failureCount (runQueries env.store (splitScript content)),
          totalCount (splitScript content)⟩]
    ++ (match out with
        | none => ([] : List Event)
        | some _ => if env.writeOk then [Event.reportWritten] else [Event.echoWriteError]),
    ?_, ?_⟩
  · simp [List.append_assoc]
  · intro hmem
    rcases out with _ | p
    · simp at hmem
    · by_cases hw : env.writeOk = true <;> simp [hw] at hmem

/-- C8 amended witness: the connection-closing event is the final event
of the concrete demo run. -/
theorem c8_conn_release_witness :
    ∃ pre, (runAll demoEnv none).1 = pre ++ [Event.connClosed]
      ∧ Event.connClosed ∉ pre :=
  c8_conn_release demoEnv none roundTripScript rfl rfl rfl

/-- C9: output-write error containment — for a run whose report write
fails, the write failure is reported on the console (an
`echoWriteError` event), while the summary counters and the
per-statement outcome stream are identical to those of the same run with
no output path specified. -/
theorem c9_write_error_containment (env : Env) (path content : PyStr)
    (h1 : env.connOk = true) (h2 : env.fileExists = true)
    (h3 : env.readResult = some content) (h4 : env.writeOk = false) :
    (runAll env (some path)).2 = (runAll env none).2
  ∧ Event.echoWriteError ∈ (runAll env (some path)).1
  ∧ (runAll env (some path)).1.filterMap stmtOutcome
      = (runAll env none).1.filterMap stmtOutcome := by
  unfold runAll
  rw [h1, h2, h3, h4]
  simp only [Bool.true_eq_false, Bool.false_eq_true, if_false]
  refine ⟨?_, ?_, ?_⟩
  · trivial
  · simp
  · simp [List.filterMap_append, stmtOutcome, List.filterMap_map, Function.comp]

/-- C9 witness: the containment evaluated at the concrete environment
`demoEnv`, whose report write fails. -/
theorem c9_write_error_containment_witness :
    (runAll demoEnv (some ("out.txt".toList))).2 = (runAll demoEnv none).2
  ∧ Event.echoWriteError ∈ (runAll demoEnv (some ("out.txt".toList))).1 := by
  have h := c9_write_error_containment demoEnv ("out.txt".toList) roundTripScript rfl rfl rfl rfl
  exact ⟨h.1, h.2.1⟩
